import Mathlib

/-!
Shallow embedding of `src/scripts/publish-interactive.py`, the interactive
npm publishing script of this repository, together with proofs about the
behaviour of its version-bump prompt, its OTP retry loop and its merge-back
step.

The script's interaction with the outside world (terminal input, the `git`
binary, `lerna`, `npm`) is modelled by a `World` record of oracles: every
prompt answer and every external command's success flag is supplied by the
oracle, indexed by loop attempt where the script reads it repeatedly.  A
run of the script is a pure function from the `World` to the list of
externally visible commands it issues (`Ev`) plus the process exit status.
-/

namespace Publish

/-- One externally visible action of the script.  Each constructor carries
exactly the data the corresponding Python f-string interpolates:
`gitCheckoutNewBranch n` is `git checkout -b {n}` (line 127),
`lernaPublish v o` is `lerna publish {v} --yes --otp {o}` (line 138),
`npmViewVersion` is `npm view @fpkit/acss version` (line 153),
`gitCheckout n` is `git checkout {n}` (lines 174 and 261),
`gitMergeNoFF n` is `git merge {n} --no-ff` (line 180),
`gitBranchDelete n` is `git branch -d {n}` (line 188),
`gitBranchForceDelete n` is `git branch -D {n}` (line 262),
`gitPushFollowTags n` is `git push origin {n} --follow-tags` (line 252 —
only ever *printed* as an instruction, never executed, so no run of the
model emits it), and `promptRetry a` is the interactive `Retry? [y/N]`
prompt of line 265 at loop attempt `a`. -/
inductive Ev where
  | gitCheckoutNewBranch (name : String)
  | lernaPublish (version otp : String)
  | npmViewVersion
  | gitCheckout (name : String)
  | gitMergeNoFF (name : String)
  | gitBranchDelete (name : String)
  | gitBranchForceDelete (name : String)
  | gitPushFollowTags (name : String)
  | promptRetry (attempt : Nat)
  deriving DecidableEq

/-- Model of Python's `str.strip()`: drop whitespace from both ends.
Implemented directly on the character list (rather than with
`String.trim`, whose library implementation does not reduce inside the
kernel) so that concrete runs evaluate by `decide`. -/
def pyStrip (s : String) : String :=
  ⟨((s.data.dropWhile Char.isWhitespace).reverse.dropWhile
      Char.isWhitespace).reverse⟩

/-- ASCII lower-casing of one character, the model of what `str.lower()`
does on the ASCII answers this script compares against `'y'`. -/
def lowerChar (c : Char) : Char :=
  if 'A' ≤ c ∧ c ≤ 'Z' then Char.ofNat (c.toNat + 32) else c

/-- Model of Python's `str.lower()` (ASCII fragment). -/
def pyLower (s : String) : String :=
  ⟨s.data.map lowerChar⟩

/-- Returns `true` on a nonempty all-digit string: the model of Python's
`str.isdigit()` restricted to ASCII input. -/
def isAllDigits (s : String) : Bool :=
  s.data.length > 0 && s.data.all Char.isDigit

/-- Splitting a character list at every `'.'`, the list-level counterpart
of Python's behaviour of `'.'`-separated chunks: always returns one more
chunk than there are dots. -/
def splitOnDot : List Char → List (List Char)
  | [] => [[]]
  | c :: t =>
    if c = '.' then [] :: splitOnDot t
    else
      match splitOnDot t with
      | [] => [[c]]
      | h :: r => (c :: h) :: r

/-- Model of `re.match(r'^\d+\.\d+\.\d+$', s)` being a match (lines 109,
232 and 244): exactly three dot-separated chunks, each a nonempty digit
string. -/
def matchesVersionPattern (s : String) : Bool :=
  match splitOnDot s.data with
  | [a, b, c] =>
    isAllDigits ⟨a⟩ && isAllDigits ⟨b⟩ && isAllDigits ⟨c⟩
  | _ => false

/-- The malformedness test of line 227: `len(otp) != 6 or not otp.isdigit()`. -/
def otpMalformed (otp : String) : Bool :=
  otp.data.length != 6 || !isAllDigits otp

/-- The release branch naming scheme, `f"release/v{version}"` (line 124). -/
def releaseBranchName (version : String) : String :=
  "release/v" ++ version

/-- The loop bound `max_attempts = 3` of line 222. -/
def max_attempts : Nat := 3

/-- Embedding of `prompt_version_bump` (lines 84-115) as a pure function of the queue of
terminal input lines.  Each recursive `continue` of the `while True` loop
consumes the lines the iteration read; `none` models the loop blocking on
input once the queue is exhausted (the function itself can only leave the
loop through one of its four `return` statements). -/
def prompt_version_bump : List String → Option String
  | [] => none
  | line :: rest =>
    let choice := pyStrip line
    if choice = "1" then some "patch"
    else if choice = "2" then some "minor"
    else if choice = "3" then
      match rest with
      | [] => none
      | confirmLine :: rest2 =>
        if pyLower (pyStrip confirmLine) = "y" then some "major"
        else prompt_version_bump rest2
    else if choice = "4" then
      match rest with
      | [] => none
      | versionLine :: rest2 =>
        let version := pyStrip versionLine
        if matchesVersionPattern version = true then some version
        else prompt_version_bump rest2
    else prompt_version_bump rest

/-- The outside world a session runs against.  Per-prompt and per-command
responses that the script reads once per loop iteration are indexed by the
attempt number (the value of the Python loop variable `attempt`, 1-based).

`dirtyTree` records whether the working tree holds uncommitted changes and
`publishErrText` the error text a failed publish writes to the terminal:
the script never reads either (it has no clean-tree check at all, and it
runs the publish command with `capture_output=False`, line 145, so
`run_command` hands it back an empty output string), so no definition
below consults these two fields — which is itself the faithful embedding
of that absence. -/
structure World where
  currentVersion : String
  currentBranch : String
  dirtyTree : Bool
  bumpInputs : List String
  proceedAnswer : String
  otpInput : Nat → String
  createOk : Nat → Bool
  publishOk : Nat → Bool
  publishErrText : Nat → String
  retryAnswer : Nat → String
  mergeHeadBranch : String
  mergeCheckoutOk : Bool
  mergeMergeOk : Bool
  mergeDeleteOk : Bool

/-- The conditional expression of line 232,
`version_bump if re.match(r'^\d+\.\d+\.\d+$', version_bump) else
current_version`: the version whose release branch gets created. -/
def branchVersionOf (w : World) (versionBump : String) : String :=
  if matchesVersionPattern versionBump = true then versionBump
  else w.currentVersion

/-- Embedding of `create_release_branch` (lines 122-134): issues
`git checkout -b release/v{version}` and reports whether it succeeded.
The command's exit status at loop attempt `attempt` is the oracle
`w.createOk attempt`. -/
def create_release_branch (w : World) (attempt : Nat) (version : String) :
    List Ev × Bool :=
  ([Ev.gitCheckoutNewBranch (releaseBranchName version)], w.createOk attempt)

/-- Embedding of `publish_with_lerna` (lines 136-147) as called from `main` (line 238):
`dry_run` is left at its default `False`, so the command is exactly
`lerna publish {version} --yes --otp {otp}`; its exit status at loop
attempt `attempt` is the oracle `w.publishOk attempt`. -/
def publish_with_lerna (w : World) (attempt : Nat) (version otp : String) :
    List Ev × Bool :=
  ([Ev.lernaPublish version otp], w.publishOk attempt)

/-- Embedding of `verify_publication` (lines 149-165): runs `npm view @fpkit/acss version`;
`main` ignores its boolean result, so only the issued command matters here. -/
def verify_publication : List Ev :=
  [Ev.npmViewVersion]

/-- Embedding of `merge_release_branch` (lines 167-192).  `current` is re-read from the
VCS at entry (`get_current_branch()`, line 169), modelled by the oracle
`w.mergeHeadBranch`; the function then checks out `featureBranch`, merges
`current` with `--no-ff`, and — only if both succeeded — soft-deletes
`current` (the deletion's own exit status, `w.mergeDeleteOk`, only selects
a printed message, so it does not appear in the result). -/
def merge_release_branch (w : World) (featureBranch : String) :
    List Ev × Bool :=
  let current := w.mergeHeadBranch
  if w.mergeCheckoutOk = false then
    ([Ev.gitCheckout featureBranch], false)
  else if w.mergeMergeOk = false then
    ([Ev.gitCheckout featureBranch, Ev.gitMergeNoFF current], false)
  else
    ([Ev.gitCheckout featureBranch, Ev.gitMergeNoFF current,
      Ev.gitBranchDelete current], true)

/-- The OTP retry loop of `main` (lines 222-270), `for attempt in
range(1, max_attempts + 1)`, written with an explicit count `r` of loop
iterations still available (the loop is entered as `otpLoopAux w vb
max_attempts 1`, and `r` decreases as `attempt` increases).  Running out
of iterations falls through to lines 269-270: exit status 1.  Inside one
iteration, in source order: read and strip the OTP (lines 225, 119);
`continue` on a malformed code (lines 227-229); create the release branch
from `version_bump` if it matches the version pattern else from the
current version, exiting 1 on failure (lines 231-233); publish
(line 238); on success optionally verify, merge back ignoring the merge's
result, and exit 0 (lines 244-256); on failure check out the original
branch, force-delete `release/v{version_bump}`, and — only when attempts
remain — ask `Retry?`, breaking out (exit 1) unless the answer is `y`
(lines 260-267). -/
def otpLoopAux (w : World) (versionBump : String) : Nat → Nat → List Ev × Nat
  | 0, _ => ([], 1)
  | r + 1, attempt =>
    let otp := pyStrip (w.otpInput attempt)
    if otpMalformed otp = true then
      otpLoopAux w versionBump r (attempt + 1)
    else
      let branchVersion := branchVersionOf w versionBump
      let createRes := create_release_branch w attempt branchVersion
      if createRes.2 = false then
        (createRes.1, 1)
      else
        let pubRes := publish_with_lerna w attempt versionBump otp
        if pubRes.2 = true then
          let verifyEvs :=
            if matchesVersionPattern versionBump = true then verify_publication
            else []
          let mergeRes := merge_release_branch w w.currentBranch
          (createRes.1 ++ pubRes.1 ++ verifyEvs ++ mergeRes.1, 0)
        else
          let cleanupEvs := [Ev.gitCheckout w.currentBranch,
            Ev.gitBranchForceDelete (releaseBranchName versionBump)]
          if attempt < max_attempts then
            if pyLower (pyStrip (w.retryAnswer attempt)) = "y" then
              let rest := otpLoopAux w versionBump r (attempt + 1)
              (createRes.1 ++ pubRes.1 ++ cleanupEvs ++
                Ev.promptRetry attempt :: rest.1, rest.2)
            else
              (createRes.1 ++ pubRes.1 ++ cleanupEvs ++
                [Ev.promptRetry attempt], 1)
          else
            let rest := otpLoopAux w versionBump r (attempt + 1)
            (createRes.1 ++ pubRes.1 ++ cleanupEvs ++ rest.1, rest.2)

/-- Embedding of `main` (lines 194-270): resolve the version bump interactively, ask the
`Proceed with publish?` confirmation (exiting 0 on anything but `y`,
lines 215-219), then run the OTP loop.  `none` models the run blocking
forever because the bump prompt exhausted its input queue. -/
def main (w : World) : Option (List Ev × Nat) :=
  match prompt_version_bump w.bumpInputs with
  | none => none
  | some versionBump =>
    if pyLower (pyStrip w.proceedAnswer) = "y" then
      some (otpLoopAux w versionBump max_attempts 1)
    else
      some ([], 0)

/-- Number of `lerna publish` invocations in a trace. -/
def countPublish : List Ev → Nat
  | [] => 0
  | Ev.lernaPublish _ _ :: t => countPublish t + 1
  | _ :: t => countPublish t

/-- Number of branch deletions (soft or forced) in a trace. -/
def countDelete : List Ev → Nat
  | [] => 0
  | Ev.gitBranchDelete _ :: t => countDelete t + 1
  | Ev.gitBranchForceDelete _ :: t => countDelete t + 1
  | _ :: t => countDelete t

/-- Number of `git push` invocations in a trace. -/
def countPush : List Ev → Nat
  | [] => 0
  | Ev.gitPushFollowTags _ :: t => countPush t + 1
  | _ :: t => countPush t

/-- A baseline session against which the concrete runs below are variations:
version 6.0.0 on `main`, bump choice `1` (patch), everything the script
asks for answered affirmatively, every external command succeeding. -/
def baseWorld : World where
  currentVersion := "6.0.0"
  currentBranch := "main"
  dirtyTree := false
  bumpInputs := ["1"]
  proceedAnswer := "y"
  otpInput := fun _ => "123456"
  createOk := fun _ => true
  publishOk := fun _ => true
  publishErrText := fun _ => ""
  retryAnswer := fun _ => "y"
  mergeHeadBranch := "release/v6.0.0"
  mergeCheckoutOk := true
  mergeMergeOk := true
  mergeDeleteOk := true

/-- A session whose operator types a five-digit code at the first three OTP
prompts and a valid code from the fourth prompt on, with the registry ready
to accept any publish. -/
def W1 : World :=
  { baseWorld with otpInput := fun i => if i ≤ 3 then "12345" else "123456" }

/-- A session in which every publish attempt is rejected by the registry
and the operator always agrees to retry. -/
def WF : World :=
  { baseWorld with publishOk := fun _ => false }

/-- The full trace of `WF`: three failed attempts, each re-creating the
branch, publishing, checking out `main` and force-deleting
`release/vpatch`, with `Retry?` prompts after the first two. -/
def TRF : List Ev :=
  [Ev.gitCheckoutNewBranch "release/v6.0.0",
   Ev.lernaPublish "patch" "123456",
   Ev.gitCheckout "main", Ev.gitBranchForceDelete "release/vpatch",
   Ev.promptRetry 1,
   Ev.gitCheckoutNewBranch "release/v6.0.0",
   Ev.lernaPublish "patch" "123456",
   Ev.gitCheckout "main", Ev.gitBranchForceDelete "release/vpatch",
   Ev.promptRetry 2,
   Ev.gitCheckoutNewBranch "release/v6.0.0",
   Ev.lernaPublish "patch" "123456",
   Ev.gitCheckout "main", Ev.gitBranchForceDelete "release/vpatch"]

/-- A session in which the publish succeeds at once but the no-fast-forward
merge of the merge-back step fails. -/
def W3 : World :=
  { baseWorld with mergeMergeOk := false }

/-- The trace of `W3`: the merge-back stops after the failed merge, nothing
is deleted — and yet the session carries on to `sys.exit(0)`. -/
def TR3 : List Ev :=
  [Ev.gitCheckoutNewBranch "release/v6.0.0",
   Ev.lernaPublish "patch" "123456",
   Ev.gitCheckout "main", Ev.gitMergeNoFF "release/v6.0.0"]

/-- A session with one rejected publish attempt after which the operator
declines the `Retry?` offer. -/
def W4 : World :=
  { baseWorld with publishOk := fun _ => false, retryAnswer := fun _ => "n" }

/-- The trace of `W4`: the cleanup checkout and force-deletion run
unconditionally, before the `Retry?` prompt, and the deleted name
`release/vpatch` differs from the created name `release/v6.0.0`. -/
def TR4 : List Ev :=
  [Ev.gitCheckoutNewBranch "release/v6.0.0",
   Ev.lernaPublish "patch" "123456",
   Ev.gitCheckout "main", Ev.gitBranchForceDelete "release/vpatch",
   Ev.promptRetry 1]

/-- The baseline session started from a working tree with uncommitted
changes. -/
def W5 : World :=
  { baseWorld with dirtyTree := true }

/-- The trace of `W5`: identical to the clean-tree baseline, branch
creation included. -/
def TR5 : List Ev :=
  [Ev.gitCheckoutNewBranch "release/v6.0.0",
   Ev.lernaPublish "patch" "123456",
   Ev.gitCheckout "main", Ev.gitMergeNoFF "release/v6.0.0",
   Ev.gitBranchDelete "release/v6.0.0"]

/-- Session `W4` with the failed publish writing an `invalid`-classified error
text to the terminal. -/
def W6a : World :=
  { W4 with publishErrText := fun _ => "npm ERR! EOTP invalid one-time password" }

/-- Session `W4` with the failed publish writing an error text the spec calls
opaque (no `invalid`/`expired` substring). -/
def W6b : World :=
  { W4 with publishErrText := fun _ => "npm ERR! network socket hang up" }

/-- A session that picks an explicit version `6.1.0` through the custom
bump choice, started from a feature branch, with every step succeeding. -/
def W8 : World :=
  { baseWorld with
    bumpInputs := ["4", "6.1.0"]
    currentBranch := "feature/widgets"
    mergeHeadBranch := "release/v6.1.0" }

/-- The trace of `W8`: create, publish, verify, then the three merge-back
commands — and not a single `git push`. -/
def TR8 : List Ev :=
  [Ev.gitCheckoutNewBranch "release/v6.1.0",
   Ev.lernaPublish "6.1.0" "123456",
   Ev.npmViewVersion,
   Ev.gitCheckout "feature/widgets", Ev.gitMergeNoFF "release/v6.1.0",
   Ev.gitBranchDelete "release/v6.1.0"]

/-- The four commands one failed publish iteration always issues, in
source order (lines 227-262): create the branch, publish, check out the
original branch, force-delete `release/v{version_bump}`. -/
def failedAttemptEvs (w : World) (vb : String) (a : Nat) : List Ev :=
  [Ev.gitCheckoutNewBranch (releaseBranchName (branchVersionOf w vb)),
   Ev.lernaPublish vb (pyStrip (w.otpInput a)),
   Ev.gitCheckout w.currentBranch,
   Ev.gitBranchForceDelete (releaseBranchName vb)]

theorem countPublish_append (l1 l2 : List Ev) :
    countPublish (l1 ++ l2) = countPublish l1 + countPublish l2 := by
  induction l1 with
  | nil => simp [countPublish]
  | cons e t ih => cases e <;> (simp [countPublish, ih]; try omega)

theorem countPush_append (l1 l2 : List Ev) :
    countPush (l1 ++ l2) = countPush l1 + countPush l2 := by
  induction l1 with
  | nil => simp [countPush]
  | cons e t ih => cases e <;> (simp [countPush, ih]; try omega)

theorem countDelete_append (l1 l2 : List Ev) :
    countDelete (l1 ++ l2) = countDelete l1 + countDelete l2 := by
  induction l1 with
  | nil => simp [countDelete]
  | cons e t ih => cases e <;> (simp [countDelete, ih]; try omega)

theorem countPublish_merge (w : World) (fb : String) :
    countPublish (merge_release_branch w fb).1 = 0 := by
  unfold merge_release_branch
  split
  · rfl
  · split <;> rfl

theorem countPush_merge (w : World) (fb : String) :
    countPush (merge_release_branch w fb).1 = 0 := by
  unfold merge_release_branch
  split
  · rfl
  · split <;> rfl

theorem otpLoopAux_malformed (w : World) (vb : String) (r a : Nat)
    (h : otpMalformed (pyStrip (w.otpInput a)) = true) :
    otpLoopAux w vb (r + 1) a = otpLoopAux w vb r (a + 1) := by
  simp [otpLoopAux, h]

theorem countPublish_otpLoopAux (w : World) (vb : String) :
    ∀ r a, countPublish (otpLoopAux w vb r a).1 ≤ r := by
  intro r
  induction r with
  | zero => intro a; simp [otpLoopAux, countPublish]
  | succ n ih =>
    intro a
    by_cases hmal : otpMalformed (pyStrip (w.otpInput a)) = true
    · rw [otpLoopAux_malformed w vb n a hmal]
      exact le_trans (ih (a + 1)) (Nat.le_succ n)
    · by_cases hcre : w.createOk a = false
      · simp [otpLoopAux, hmal, hcre, create_release_branch, countPublish]
      · by_cases hpub : w.publishOk a = true
        · simp only [otpLoopAux, hmal, hcre, hpub, create_release_branch,
            publish_with_lerna, verify_publication, if_false, if_true,
            ite_false, ite_true, Bool.false_eq_true]
          simp [countPublish_append, countPublish, countPublish_merge]
          split <;> simp [countPublish, countPublish_append,
            countPublish_merge]
        · by_cases hlt : a < max_attempts
          · by_cases hret : pyLower (pyStrip (w.retryAnswer a)) = "y"
            · simp only [otpLoopAux, hmal, hcre, hpub, hlt, hret,
                create_release_branch, publish_with_lerna]
              simp [countPublish_append, countPublish]
              have := ih (a + 1)
              omega
            · simp only [otpLoopAux, hmal, hcre, hpub, hlt, hret,
                create_release_branch, publish_with_lerna]
              simp [countPublish_append, countPublish]
          · simp only [otpLoopAux, hmal, hcre, hpub, hlt,
              create_release_branch, publish_with_lerna]
            simp [countPublish_append, countPublish]
            have := ih (a + 1)
            omega

theorem otpLoopAux_exit_one (w : World) (vb : String) :
    ∀ r a, (∀ i, a ≤ i → i < a + r → w.publishOk i = false) →
      (otpLoopAux w vb r a).2 = 1 := by
  intro r
  induction r with
  | zero => intro a _; simp [otpLoopAux]
  | succ n ih =>
    intro a h
    have hfa : w.publishOk a = false := h a (Nat.le_refl a) (by omega)
    have hnext : (otpLoopAux w vb n (a + 1)).2 = 1 :=
      ih (a + 1) fun i h1 h2 => h i (by omega) (by omega)
    by_cases hmal : otpMalformed (pyStrip (w.otpInput a)) = true
    · rw [otpLoopAux_malformed w vb n a hmal]
      exact hnext
    · by_cases hcre : w.createOk a = false
      · simp [otpLoopAux, hmal, hcre, create_release_branch]
      · by_cases hlt : a < max_attempts
        · by_cases hret : pyLower (pyStrip (w.retryAnswer a)) = "y"
          · simp [otpLoopAux, hmal, hcre, hfa, hlt, hret,
              create_release_branch, publish_with_lerna, hnext]
          · simp [otpLoopAux, hmal, hcre, hfa, hlt, hret,
              create_release_branch, publish_with_lerna]
        · simp [otpLoopAux, hmal, hcre, hfa, hlt,
            create_release_branch, publish_with_lerna, hnext]

theorem mergeEvs_no_create (w : World) (fb b : String) :
    Ev.gitCheckoutNewBranch b ∉ (merge_release_branch w fb).1 := by
  unfold merge_release_branch
  split
  · simp
  · split <;> simp

theorem mergeEvs_no_force_delete (w : World) (fb b : String) :
    Ev.gitBranchForceDelete b ∉ (merge_release_branch w fb).1 := by
  unfold merge_release_branch
  split
  · simp
  · split <;> simp

theorem otpLoopAux_names (w : World) (vb : String) :
    ∀ r a b,
      (Ev.gitCheckoutNewBranch b ∈ (otpLoopAux w vb r a).1 →
        b = releaseBranchName (branchVersionOf w vb)) ∧
      (Ev.gitBranchForceDelete b ∈ (otpLoopAux w vb r a).1 →
        b = releaseBranchName vb) := by
  intro r
  induction r with
  | zero =>
    intro a b
    refine ⟨fun hm => ?_, fun hm => ?_⟩ <;> simp [otpLoopAux] at hm
  | succ n ih =>
    intro a b
    by_cases hmal : otpMalformed (pyStrip (w.otpInput a)) = true
    · rw [otpLoopAux_malformed w vb n a hmal]
      exact ih (a + 1) b
    by_cases hcre : w.createOk a = false
    · refine ⟨fun hm => ?_, fun hm => ?_⟩ <;>
        simp [otpLoopAux, hmal, hcre, create_release_branch] at hm
      exact hm
    by_cases hpub : w.publishOk a = true
    · refine ⟨fun hm => ?_, fun hm => ?_⟩ <;>
        simp [otpLoopAux, hmal, hcre, hpub, create_release_branch,
          publish_with_lerna, verify_publication, List.mem_append,
          mergeEvs_no_create w w.currentBranch b,
          mergeEvs_no_force_delete w w.currentBranch b] at hm
      exact hm
    by_cases hlt : a < max_attempts
    · by_cases hret : pyLower (pyStrip (w.retryAnswer a)) = "y"
      · refine ⟨fun hm => ?_, fun hm => ?_⟩ <;>
          simp [otpLoopAux, hmal, hcre, hpub, hlt, hret,
            create_release_branch, publish_with_lerna,
            List.mem_append] at hm
        · rcases hm with hm | hm
          · exact hm
          · exact (ih (a + 1) b).1 hm
        · rcases hm with hm | hm
          · exact hm
          · exact (ih (a + 1) b).2 hm
      · refine ⟨fun hm => ?_, fun hm => ?_⟩ <;>
          simp [otpLoopAux, hmal, hcre, hpub, hlt, hret,
            create_release_branch, publish_with_lerna,
            List.mem_append] at hm
        · exact hm
        · exact hm
    · refine ⟨fun hm => ?_, fun hm => ?_⟩ <;>
        simp [otpLoopAux, hmal, hcre, hpub, hlt,
          create_release_branch, publish_with_lerna,
          List.mem_append] at hm
      · rcases hm with hm | hm
        · exact hm
        · exact (ih (a + 1) b).1 hm
      · rcases hm with hm | hm
        · exact hm
        · exact (ih (a + 1) b).2 hm

theorem countPush_otpLoopAux (w : World) (vb : String) :
    ∀ r a, countPush (otpLoopAux w vb r a).1 = 0 := by
  intro r
  induction r with
  | zero => intro a; simp [otpLoopAux, countPush]
  | succ n ih =>
    intro a
    by_cases hmal : otpMalformed (pyStrip (w.otpInput a)) = true
    · rw [otpLoopAux_malformed w vb n a hmal]
      exact ih (a + 1)
    by_cases hcre : w.createOk a = false
    · simp [otpLoopAux, hmal, hcre, create_release_branch, countPush]
    by_cases hpub : w.publishOk a = true
    · simp only [otpLoopAux, hmal, hcre, hpub, create_release_branch,
        publish_with_lerna]
      simp [countPush_append, countPush, countPush_merge]
      split <;> simp [countPush, verify_publication]
    by_cases hlt : a < max_attempts
    · by_cases hret : pyLower (pyStrip (w.retryAnswer a)) = "y"
      · simp [otpLoopAux, hmal, hcre, hpub, hlt, hret,
          create_release_branch, publish_with_lerna, countPush_append,
          countPush, ih (a + 1)]
      · simp [otpLoopAux, hmal, hcre, hpub, hlt, hret,
          create_release_branch, publish_with_lerna, countPush_append,
          countPush]
    · simp [otpLoopAux, hmal, hcre, hpub, hlt,
        create_release_branch, publish_with_lerna, countPush_append,
        countPush, ih (a + 1)]

theorem merge_set_dirty (w : World) (b : Bool) (fb : String) :
    merge_release_branch { w with dirtyTree := b } fb =
      merge_release_branch w fb := rfl

theorem otpLoopAux_set_dirty (w : World) (b : Bool) (vb : String) :
    ∀ r a, otpLoopAux { w with dirtyTree := b } vb r a =
      otpLoopAux w vb r a := by
  intro r
  induction r with
  | zero => intro a; rfl
  | succ n ih =>
    intro a
    simp [otpLoopAux, ih, merge_set_dirty, create_release_branch,
      publish_with_lerna, branchVersionOf]

theorem main_set_dirty (w : World) (b : Bool) :
    main { w with dirtyTree := b } = main w := by
  unfold main
  simp only [otpLoopAux_set_dirty]

theorem merge_set_err (w : World) (f : Nat → String) (fb : String) :
    merge_release_branch { w with publishErrText := f } fb =
      merge_release_branch w fb := rfl

theorem otpLoopAux_set_err (w : World) (f : Nat → String) (vb : String) :
    ∀ r a, otpLoopAux { w with publishErrText := f } vb r a =
      otpLoopAux w vb r a := by
  intro r
  induction r with
  | zero => intro a; rfl
  | succ n ih =>
    intro a
    simp [otpLoopAux, ih, merge_set_err, create_release_branch,
      publish_with_lerna, branchVersionOf]

theorem main_set_err (w : World) (f : Nat → String) :
    main { w with publishErrText := f } = main w := by
  unfold main
  simp only [otpLoopAux_set_err]

theorem prompt_version_bump_of_length :
    ∀ (n : Nat) (inputs : List String), inputs.length ≤ n → ∀ s,
      prompt_version_bump inputs = some s →
      s = "patch" ∨ s = "minor" ∨ s = "major" ∨
        matchesVersionPattern s = true := by
  intro n
  induction n with
  | zero =>
    intro inputs hlen s hs
    cases inputs with
    | nil => simp [prompt_version_bump] at hs
    | cons l t => simp at hlen
  | succ m ih =>
    intro inputs hlen s hs
    cases inputs with
    | nil => simp [prompt_version_bump] at hs
    | cons line rest =>
      rw [prompt_version_bump.eq_def] at hs
      by_cases h1 : pyStrip line = "1"
      · simp [h1] at hs
        exact Or.inl hs.symm
      by_cases h2 : pyStrip line = "2"
      · simp [h1, h2] at hs
        exact Or.inr (Or.inl hs.symm)
      by_cases h3 : pyStrip line = "3"
      · cases rest with
        | nil => simp [h1, h2, h3] at hs
        | cons c rest2 =>
          by_cases hy : pyLower (pyStrip c) = "y"
          · simp [h1, h2, h3, hy] at hs
            exact Or.inr (Or.inr (Or.inl hs.symm))
          · simp [h1, h2, h3, hy] at hs
            exact ih rest2 (by simp at hlen; omega) s hs
      by_cases h4 : pyStrip line = "4"
      · cases rest with
        | nil => simp [h1, h2, h3, h4] at hs
        | cons v rest2 =>
          by_cases hver : matchesVersionPattern (pyStrip v) = true
          · simp [h1, h2, h3, h4, hver] at hs
            exact Or.inr (Or.inr (Or.inr (hs ▸ hver)))
          · simp [h1, h2, h3, h4, hver] at hs
            exact ih rest2 (by simp at hlen; omega) s hs
      · simp [h1, h2, h3, h4] at hs
        exact ih rest (by simp at hlen; omega) s hs

/-- Claim C1, counterexample.  In `W1` the operator types the malformed
code `12345` at the first three OTP prompts; a well-formed code would be
supplied from the fourth prompt on, and every publish would succeed.  Were
the claim true — malformed codes consume none of the retry budget — the
loop would still be re-prompting with its full budget and would reach that
well-formed code.  Instead the run ends after the three malformed codes
with exit status 1 and an empty command trace: the publish command was
never invoked, the malformed codes consumed the whole budget. -/
theorem malformed_otp_consumes_budget_cex :
    main W1 = some ([], 1) ∧
    otpMalformed (pyStrip (W1.otpInput 4)) = false ∧
    W1.publishOk 4 = true := by decide

/-- Claim C1 as amended: a malformed OTP code (length ≠ 6 or a non-digit
character) makes the loop re-prompt without creating a branch or invoking
the publish command, but — unlike what the claim states — it consumes one
of the three loop iterations: the remaining iteration budget shrinks by
one while the attempt index advances. -/
theorem malformed_otp_skips_iteration (w : World) (vb : String) (r a : Nat)
    (h : otpMalformed (pyStrip (w.otpInput a)) = true) :
    otpLoopAux w vb (r + 1) a = otpLoopAux w vb r (a + 1) :=
  otpLoopAux_malformed w vb r a h

/-- Witness for `malformed_otp_skips_iteration` at the concrete session
`W1`, first attempt. -/
theorem malformed_otp_skips_iteration_w :
    otpMalformed (pyStrip (W1.otpInput 1)) = true ∧
    otpLoopAux W1 "patch" 3 1 = otpLoopAux W1 "patch" 2 2 :=
  ⟨by decide, malformed_otp_skips_iteration W1 "patch" 2 1 (by decide)⟩

/-- Claim C2: in any session, at most `max_attempts = 3` publish
invocations occur (the publish command is never invoked a fourth time),
and when the operator proceeds and every attempt in the budget is
rejected, the process terminates with exit status 1. -/
theorem publish_attempts_bounded (w : World) (tr : List Ev) (c : Nat)
    (hrun : main w = some (tr, c)) :
    countPublish tr ≤ max_attempts ∧
      (pyLower (pyStrip w.proceedAnswer) = "y" →
        w.publishOk 1 = false → w.publishOk 2 = false →
        w.publishOk 3 = false → c = 1) := by
  unfold main at hrun
  rcases hp : prompt_version_bump w.bumpInputs with _ | vb
  · rw [hp] at hrun; simp at hrun
  · rw [hp] at hrun
    dsimp only at hrun
    by_cases hy : pyLower (pyStrip w.proceedAnswer) = "y"
    · rw [if_pos hy] at hrun
      have hpair := Option.some.inj hrun
      constructor
      · have hb := countPublish_otpLoopAux w vb max_attempts 1
        rw [hpair] at hb
        exact hb
      · intro _ hf1 hf2 hf3
        have hone := otpLoopAux_exit_one w vb max_attempts 1 ?_
        · rw [hpair] at hone
          exact hone
        · intro i hi1 hi2
          simp [max_attempts] at hi2
          interval_cases i <;> assumption
    · rw [if_neg hy] at hrun
      have hpair := Option.some.inj hrun
      injection hpair with htr hc
      constructor
      · rw [← htr]; simp [countPublish]
      · intro hyy; exact absurd hyy hy

/-- Witness for `publish_attempts_bounded` at the concrete session `WF`,
whose three publish attempts all fail. -/
theorem publish_attempts_bounded_w :
    main WF = some (TRF, 1) ∧ countPublish TRF ≤ max_attempts ∧
    pyLower (pyStrip WF.proceedAnswer) = "y" ∧ (1 : Nat) = 1 := by
  have h := publish_attempts_bounded WF TRF 1 (by decide)
  exact ⟨by decide, h.1, by decide, h.2 (by decide) rfl rfl rfl⟩

/-- Claim C3, counterexample.  In `W3` the publish succeeds but the
no-fast-forward merge of the merge-back fails.  The branch is indeed never
deleted (no delete command in the trace), but — against the claim — the
process exits with status 0, not 1: `main` ignores the result of
`merge_release_branch` and reaches `sys.exit(0)` regardless. -/
theorem merge_failure_exit_zero_cex :
    W3.mergeMergeOk = false ∧ main W3 = some (TR3, 0) ∧
    countDelete TR3 = 0 := by decide

/-- Claim C3 as amended: when the checkout or the merge of the merge-back
fails, `merge_release_branch` stops, reports failure and issues no branch
deletion; but the session's exit status after a successful publish is 0
regardless, because `main` discards that result. -/
theorem merge_failure_no_delete_exit_zero :
    (∀ (w : World) (fb : String),
      w.mergeCheckoutOk = false ∨ w.mergeMergeOk = false →
        (merge_release_branch w fb).2 = false ∧
        countDelete (merge_release_branch w fb).1 = 0) ∧
    (∀ (w : World) (vb : String) (r a : Nat),
      otpMalformed (pyStrip (w.otpInput a)) = false →
      w.createOk a = true → w.publishOk a = true →
      (otpLoopAux w vb (r + 1) a).2 = 0) := by
  constructor
  · intro w fb h
    cases hc : w.mergeCheckoutOk
    · simp [merge_release_branch, hc, countDelete]
    · rcases h with h | h
      · rw [hc] at h; simp at h
      · simp [merge_release_branch, hc, h, countDelete]
  · intro w vb r a hmal hcre hpub
    simp [otpLoopAux, hmal, hcre, hpub, create_release_branch,
      publish_with_lerna]

/-- Witness for `merge_failure_no_delete_exit_zero` at the concrete
session `W3`. -/
theorem merge_failure_no_delete_exit_zero_w :
    (W3.mergeCheckoutOk = false ∨ W3.mergeMergeOk = false) ∧
    (merge_release_branch W3 "main").2 = false ∧
    countDelete (merge_release_branch W3 "main").1 = 0 ∧
    otpMalformed (pyStrip (W3.otpInput 1)) = false ∧
    W3.createOk 1 = true ∧ W3.publishOk 1 = true ∧
    (otpLoopAux W3 "patch" 3 1).2 = 0 := by
  have h1 := merge_failure_no_delete_exit_zero.1 W3 "main" (Or.inr rfl)
  have h2 := merge_failure_no_delete_exit_zero.2 W3 "patch" 2 1
    (by decide) rfl rfl
  exact ⟨Or.inr rfl, h1.1, h1.2, by decide, rfl, rfl, h2⟩

/-- Claim C4, counterexample.  In `W4` the interactive bump choice is
`patch`, so the branch is created as `release/v6.0.0` (from the current
version) — but the cleanup after the failed publish force-deletes
`release/vpatch`, interpolating the raw bump word.  The created name and
the deleted name are different strings within one session, so the branch
name is not one pure function of the target version used consistently by
every operation. -/
theorem branch_name_mismatch_cex :
    main W4 = some (TR4, 1) ∧
    Ev.gitCheckoutNewBranch (releaseBranchName "6.0.0") ∈ TR4 ∧
    Ev.gitBranchForceDelete (releaseBranchName "patch") ∈ TR4 ∧
    releaseBranchName "6.0.0" ≠ releaseBranchName "patch" := by decide

/-- Claim C4 as amended: every branch creation in the loop uses the name
`release/v{branchVersionOf w vb}` (the bump string when it is an explicit
`digits.digits.digits` version, the current version otherwise), while
every cleanup force-deletion uses `release/v{vb}` with the raw bump
string; the two coincide when the bump string is an explicit version. -/
theorem branch_name_characterization (w : World) (vb : String) (r a : Nat)
    (b : String) :
    (Ev.gitCheckoutNewBranch b ∈ (otpLoopAux w vb r a).1 →
      b = releaseBranchName (branchVersionOf w vb)) ∧
    (Ev.gitBranchForceDelete b ∈ (otpLoopAux w vb r a).1 →
      b = releaseBranchName vb) ∧
    (matchesVersionPattern vb = true → branchVersionOf w vb = vb) := by
  refine ⟨(otpLoopAux_names w vb r a b).1,
    (otpLoopAux_names w vb r a b).2, fun h => ?_⟩
  simp [branchVersionOf, h]

/-- Witness for `branch_name_characterization` at the concrete session
`W8`, whose bump string is the explicit version `6.1.0`. -/
theorem branch_name_characterization_w :
    Ev.gitCheckoutNewBranch "release/v6.1.0" ∈
      (otpLoopAux W8 "6.1.0" 3 1).1 ∧
    "release/v6.1.0" = releaseBranchName (branchVersionOf W8 "6.1.0") ∧
    matchesVersionPattern "6.1.0" = true ∧
    branchVersionOf W8 "6.1.0" = "6.1.0" := by
  have h := branch_name_characterization W8 "6.1.0" 3 1 "release/v6.1.0"
  exact ⟨by decide, h.1 (by decide), by decide, h.2.2 (by decide)⟩

/-- Claim C5, counterexample.  `W5` is the baseline session started from a
working tree with uncommitted changes (`dirtyTree = true`).  No
`DirtyTreeError` exists anywhere in the script and no clean-tree check is
made: the run creates the release branch and exits with status 0. -/
theorem dirty_tree_no_check_cex :
    W5.dirtyTree = true ∧ main W5 = some (TR5, 0) ∧
    Ev.gitCheckoutNewBranch "release/v6.0.0" ∈ TR5 := by decide

/-- Claim C5 as amended: the script performs no clean-tree validation at
all — a session's entire behaviour (commands issued and exit status) is
independent of whether the working tree is dirty, so branches are created
from dirty trees exactly as from clean ones. -/
theorem run_ignores_dirty_tree (w : World) (b : Bool) :
    main { w with dirtyTree := b } = main w :=
  main_set_dirty w b

/-- Claim C6, counterexample.  `W6a` and `W6b` differ only in the error
text of the failed publish: one contains `invalid` (retryable per the
claim), the other is an opaque network error.  Both runs are identical —
same commands, same exit status — so no classification by error text
exists; the script runs the publish with `capture_output=False` and never
sees the text at all. -/
theorem error_text_unclassified_cex :
    W6a.publishErrText 1 ≠ W6b.publishErrText 1 ∧
    main W6a = some (TR4, 1) ∧ main W6b = some (TR4, 1) := by decide

/-- Claim C6 as amended: failed publish attempts are not classified by
their error text — the whole run is independent of that text — and every
failure is treated uniformly: it consumes exactly one loop iteration
(when the operator lets the loop continue, the session's exit status is
that of the loop resumed at the next attempt with one iteration less). -/
theorem error_text_ignored_failures_uniform :
    (∀ (w : World) (f : Nat → String),
      main { w with publishErrText := f } = main w) ∧
    (∀ (w : World) (vb : String) (r a : Nat),
      otpMalformed (pyStrip (w.otpInput a)) = false →
      w.createOk a = true → w.publishOk a = false →
      (a < max_attempts → pyLower (pyStrip (w.retryAnswer a)) = "y") →
      (otpLoopAux w vb (r + 1) a).2 = (otpLoopAux w vb r (a + 1)).2) := by
  constructor
  · exact fun w f => main_set_err w f
  · intro w vb r a hmal hcre hpub hret
    by_cases hlt : a < max_attempts
    · have hy := hret hlt
      simp [otpLoopAux, hmal, hcre, hpub, hlt, hy, create_release_branch,
        publish_with_lerna]
    · simp [otpLoopAux, hmal, hcre, hpub, hlt, create_release_branch,
        publish_with_lerna]

/-- Witness for `error_text_ignored_failures_uniform`: the baseline world
with a changed error text runs identically, and in `WF` the failed first
attempt hands control to the loop at attempt 2 with one iteration less. -/
theorem error_text_ignored_failures_uniform_w :
    main { baseWorld with publishErrText := fun _ => "boom" } =
      main baseWorld ∧
    otpMalformed (pyStrip (WF.otpInput 1)) = false ∧
    WF.createOk 1 = true ∧ WF.publishOk 1 = false ∧
    (otpLoopAux WF "patch" 3 1).2 = (otpLoopAux WF "patch" 2 2).2 := by
  refine ⟨error_text_ignored_failures_uniform.1 baseWorld (fun _ => "boom"),
    by decide, rfl, rfl,
    error_text_ignored_failures_uniform.2 WF "patch" 2 1 (by decide) rfl rfl
      (fun _ => by decide)⟩

/-- Claim C7, counterexample.  In `W4` the very first publish attempt
fails, so the retry budget is far from exhausted, and the operator answers
`n` — yet the run checks out the original branch and force-deletes the
branch *before* asking anything: the force-deletion sits at index 3 of the
trace and the only prompt, the `Retry?` question, at index 4.  There is no
pre-deletion yes/no question, the deletion is unconditional, and it
happens on every failed attempt rather than only after exhaustion. -/
theorem cleanup_before_prompt_cex :
    main W4 = some (TR4, 1) ∧
    TR4[3]? = some (Ev.gitBranchForceDelete "release/vpatch") ∧
    TR4[4]? = some (Ev.promptRetry 1) ∧
    pyLower (pyStrip (W4.retryAnswer 1)) = "n" := by decide

/-- Claim C7 as amended: after every failed publish attempt — not only
after exhaustion — the loop unconditionally issues the cleanup checkout
and the force-deletion of `release/v{version_bump}`; the only question
asked is the `Retry?` prompt, which comes after the deletion (and only
while attempts remain) and decides merely whether another attempt is
made. -/
theorem failed_attempt_cleanup_shape (w : World) (vb : String) (r a : Nat)
    (hmal : otpMalformed (pyStrip (w.otpInput a)) = false)
    (hcre : w.createOk a = true) (hpub : w.publishOk a = false)
    (hlt : a < max_attempts) :
    (pyLower (pyStrip (w.retryAnswer a)) ≠ "y" →
      otpLoopAux w vb (r + 1) a =
        (failedAttemptEvs w vb a ++ [Ev.promptRetry a], 1)) ∧
    (pyLower (pyStrip (w.retryAnswer a)) = "y" →
      otpLoopAux w vb (r + 1) a =
        (failedAttemptEvs w vb a ++
          Ev.promptRetry a :: (otpLoopAux w vb r (a + 1)).1,
          (otpLoopAux w vb r (a + 1)).2)) := by
  constructor <;> intro hy <;>
    simp [otpLoopAux, hmal, hcre, hpub, hlt, hy, failedAttemptEvs,
      create_release_branch, publish_with_lerna]

/-- Witness for `failed_attempt_cleanup_shape` at the concrete session
`W4`, first attempt, operator declining the retry. -/
theorem failed_attempt_cleanup_shape_w :
    otpMalformed (pyStrip (W4.otpInput 1)) = false ∧
    W4.createOk 1 = true ∧ W4.publishOk 1 = false ∧ 1 < max_attempts ∧
    pyLower (pyStrip (W4.retryAnswer 1)) ≠ "y" ∧
    otpLoopAux W4 "patch" 3 1 =
      (failedAttemptEvs W4 "patch" 1 ++ [Ev.promptRetry 1], 1) := by
  have h := (failed_attempt_cleanup_shape W4 "patch" 2 1 (by decide) rfl rfl
    (by decide)).1 (by decide)
  exact ⟨by decide, rfl, rfl, by decide, by decide, h⟩

/-- Claim C8, counterexample.  `W8` is a fully successful session from the
feature branch `feature/widgets` with explicit version `6.1.0`.  Its trace
contains the checkout of the *original* branch (not a default branch), a
bare `git merge --no-ff` (the command carries no commit message at all,
line 180), the soft deletion — and not a single `git push`: the script
only prints the push command as a manual next step (line 252). -/
theorem no_push_after_merge_cex :
    main W8 = some (TR8, 0) ∧ countPush TR8 = 0 ∧
    Ev.gitCheckout "feature/widgets" ∈ TR8 := by decide

/-- Claim C8 as amended: after a successful publish the merge-back checks
out the invocation-time original branch, merges the merge-time HEAD branch
with `--no-ff` and no commit message, then soft-deletes that HEAD branch —
in that order — and no run of the loop ever executes a push command. -/
theorem merge_back_steps :
    (∀ (w : World) (fb : String),
      w.mergeCheckoutOk = true → w.mergeMergeOk = true →
        merge_release_branch w fb =
          ([Ev.gitCheckout fb, Ev.gitMergeNoFF w.mergeHeadBranch,
            Ev.gitBranchDelete w.mergeHeadBranch], true)) ∧
    (∀ (w : World) (vb : String) (r a : Nat),
      countPush (otpLoopAux w vb r a).1 = 0) := by
  constructor
  · intro w fb hc hm
    simp [merge_release_branch, hc, hm]
  · exact fun w vb r a => countPush_otpLoopAux w vb r a

/-- Witness for `merge_back_steps` at the concrete session `W8`. -/
theorem merge_back_steps_w :
    W8.mergeCheckoutOk = true ∧ W8.mergeMergeOk = true ∧
    merge_release_branch W8 "feature/widgets" =
      ([Ev.gitCheckout "feature/widgets", Ev.gitMergeNoFF "release/v6.1.0",
        Ev.gitBranchDelete "release/v6.1.0"], true) ∧
    countPush (otpLoopAux W8 "6.1.0" 3 1).1 = 0 :=
  ⟨rfl, rfl, merge_back_steps.1 W8 "feature/widgets" rfl rfl,
    merge_back_steps.2 W8 "6.1.0" 3 1⟩

/-- Claim C9: in the interactive bump prompt, choosing `3` (major) and
then declining the secondary confirmation continues the prompt loop on the
remaining input — control returns to the bump-category prompt; the
function has no path that terminates the process. -/
theorem major_decline_returns_to_prompt (l c : String) (rest : List String)
    (hl : pyStrip l = "3") (hc : pyLower (pyStrip c) ≠ "y") :
    prompt_version_bump (l :: c :: rest) = prompt_version_bump rest := by
  rw [prompt_version_bump.eq_def]
  simp [hl, hc]

/-- Witness for `major_decline_returns_to_prompt`: choice `3`, declined
with `n`, then choice `1`. -/
theorem major_decline_returns_to_prompt_w :
    pyStrip "3" = "3" ∧ pyLower (pyStrip "n") ≠ "y" ∧
    prompt_version_bump ["3", "n", "1"] = prompt_version_bump ["1"] :=
  ⟨by decide, by decide,
    major_decline_returns_to_prompt "3" "n" ["1"] (by decide) (by decide)⟩

/-- Claim C10: whenever the interactive bump prompt returns, its value is
`patch`, `minor`, `major`, or a string matching the strict
`digits.digits.digits` version pattern — nothing else, for any sequence of
operator inputs. -/
theorem prompt_version_bump_range (inputs : List String) (s : String)
    (hs : prompt_version_bump inputs = some s) :
    s = "patch" ∨ s = "minor" ∨ s = "major" ∨
      matchesVersionPattern s = true :=
  prompt_version_bump_of_length inputs.length inputs (Nat.le_refl _) s hs

/-- Witness for `prompt_version_bump_range` on the input queue choosing an
explicit version. -/
theorem prompt_version_bump_range_w :
    prompt_version_bump ["4", "6.1.0"] = some "6.1.0" ∧
    ("6.1.0" = "patch" ∨ "6.1.0" = "minor" ∨ "6.1.0" = "major" ∨
      matchesVersionPattern "6.1.0" = true) :=
  ⟨by decide, prompt_version_bump_range ["4", "6.1.0"] "6.1.0" (by decide)⟩


end Publish
